import Mathlib

/-!
Shallow embedding of the repository: the pydantic settings-validation module
`src/pudl/settings.py` and the alembic migration
`migrations/versions/994e1c2027c0_add_metadata_cols_to_electric_operating_.py`.

Values imported from modules that are not part of this snapshot
(`pudl.constants.WORKING_PARTITIONS`, `pudl.metadata.enums.EPACEMS_STATES`,
`pudl.extract.ferc1.DBF_TABLES_FILENAMES`) are kept as explicit parameters of
the definitions; the theorems quantify over all values of those parameters.
Fallible construction is modelled with `Except String`; a raised
`ValueError` or `AssertionError` is `Except.error` carrying the message.
-/

namespace Pudl

/-- Python `sorted(set(l))`: duplicates removed, then ascending order. -/
def sortedSet {α : Type} [DecidableEq α] [LinearOrder α] (l : List α) : List α :=
  List.insertionSort (· ≤ ·) l.dedup

/-- Python `list(set(partition) - set(working_partitions))`: the requested
values that are not working (each listed once). -/
def notWorking {α : Type} [DecidableEq α] (working partition : List α) : List α :=
  partition.dedup.filter (fun x => decide (x ∉ working))

/-- Error text of `f"{cls.__name__} is missing '{name}' field."`. -/
def missingFieldMsg (clsName fieldName : String) : String :=
  clsName ++ " is missing " ++ fieldName ++ " field."

/-- Error text of `f"'{partitions_not_working}' {name} are not available."`.
Note: the message names the offending values and the field; the working
(allowed) list does not appear in it. -/
def notAvailableMsg {α : Type} [ToString α] (fieldName : String) (bad : List α) : String :=
  toString bad ++ " " ++ fieldName ++ " are not available."

/-- One iteration of `GenericDatasetSettings.validate_partitions` for a single
partition field `fieldName` with working list `working`.  `none` models the
`KeyError` branch (the field absent from the values dict); otherwise the
requested list is checked against the working list and normalised with
`sorted(set(partition))`. -/
def validate_partition {α : Type} [DecidableEq α] [LinearOrder α] [ToString α]
    (clsName fieldName : String) (working : List α) (part : Option (List α)) :
    Except String (List α) :=
  match part with
  | none => .error (missingFieldMsg clsName fieldName)
  | some p =>
    if 0 < (notWorking working p).length then
      .error (notAvailableMsg fieldName (notWorking working p))
    else
      .ok (sortedSet p)

/-! ## Ferc1Settings -/

/-- The literal table list of `Ferc1Settings.working_partitions["tables"]`
before the `sorted` call. -/
def ferc1TablesRaw : List String :=
  ["fuel_ferc1", "plants_steam_ferc1", "plants_small_ferc1", "plants_hydro_ferc1",
   "plants_pumped_storage_ferc1", "purchased_power_ferc1", "plant_in_service_ferc1"]

/-- `Ferc1Settings.working_partitions["tables"] = sorted([...])`. -/
def ferc1WorkingTables : List String := List.insertionSort (· ≤ ·) ferc1TablesRaw

structure Ferc1Settings where
  years : List Int
  tables : List String
deriving DecidableEq, Repr

/-- Pydantic construction of `Ferc1Settings`: defaults applied
(`years = working_partitions["years"]`, `tables = working_partitions["tables"]`),
then the root validator `validate_partitions` over the class dict, which
iterates `"tables"` before `"years"`.  `wYears` stands for
`list(pc.WORKING_PARTITIONS["ferc1"]["years"])`, imported from outside the
snapshot. -/
def Ferc1Settings.construct (wYears : List Int)
    (years? : Option (List Int)) (tables? : Option (List String)) :
    Except String Ferc1Settings := do
  let years := years?.getD wYears
  let tables := tables?.getD ferc1WorkingTables
  let tables ← validate_partition "Ferc1Settings" "tables" ferc1WorkingTables (some tables)
  let years ← validate_partition "Ferc1Settings" "years" wYears (some years)
  pure ⟨years, tables⟩

/-! ## Eia860Settings -/

/-- The literal table list of `Eia860Settings.working_partitions["tables"]`
before the `sorted` call. -/
def eia860TablesRaw : List String :=
  ["boiler_generator_assn_eia860", "utilities_eia860", "plants_eia860",
   "generators_eia860", "ownership_eia860"]

/-- `Eia860Settings.working_partitions["tables"] = sorted([...])`. -/
def eia860WorkingTables : List String := List.insertionSort (· ≤ ·) eia860TablesRaw

/-- `Eia860Settings.eia860m_date`. -/
def eia860m_date : String := "2020-11"

/-- `pd.to_datetime(s).year` for a `"YYYY-MM"` string: the number formed by
the digits before the first dash. -/
def dateYear (s : String) : Int :=
  Int.ofNat ((s.data.takeWhile (fun c => c ≠ '-')).foldl (fun n c => 10 * n + (c.toNat - 48)) 0)

/-- Python `max(l)`; `max` of an empty list raises, callers only apply this to
the nonempty working-years lists. -/
def listMax (l : List Int) : Int :=
  match l with
  | [] => 0
  | x :: xs => xs.foldl max x

/-- Field validator `Eia860Settings.check_860m_date`: when `eia860m` is
requested, the year of `eia860m_date` must be exactly one past the most
recent working eia860 year, else an `AssertionError` is raised.
`w860Years` stands for `list(pc.WORKING_PARTITIONS["eia860"]["years"])`. -/
def check_860m_date (w860Years : List Int) (eia860m : Bool) : Except String Bool :=
  let eia860m_year := dateYear eia860m_date
  if eia860m ∧ eia860m_year ≠ listMax w860Years + 1 then
    .error ("Attempting to integrate an eia860m year (" ++ toString eia860m_year ++
      ") that is within the eia860 years: " ++ toString w860Years ++
      ". Consider switching eia860m parameter to False.")
  else
    .ok eia860m

structure Eia860Settings where
  years : List Int
  tables : List String
  eia860m : Bool
deriving DecidableEq, Repr

/-- Pydantic construction of `Eia860Settings`: defaults, then the field
validator `check_860m_date`, then the root validator `validate_partitions`
(dict order: `"tables"` before `"years"`). -/
def Eia860Settings.construct (w860Years : List Int)
    (years? : Option (List Int)) (tables? : Option (List String))
    (eia860m? : Option Bool) : Except String Eia860Settings := do
  let years := years?.getD w860Years
  let tables := tables?.getD eia860WorkingTables
  let eia860m := eia860m?.getD false
  let eia860m ← check_860m_date w860Years eia860m
  let tables ← validate_partition "Eia860Settings" "tables" eia860WorkingTables (some tables)
  let years ← validate_partition "Eia860Settings" "years" w860Years (some years)
  pure ⟨years, tables, eia860m⟩

/-! ## Eia923Settings -/

/-- The literal table list of `Eia923Settings.working_partitions["tables"]`
before the `sorted` call. -/
def eia923TablesRaw : List String :=
  ["generation_fuel_eia923", "boiler_fuel_eia923", "generation_eia923",
   "coalmine_eia923", "fuel_receipts_costs_eia923"]

/-- `Eia923Settings.working_partitions["tables"] = sorted([...])`. -/
def eia923WorkingTables : List String := List.insertionSort (· ≤ ·) eia923TablesRaw

structure Eia923Settings where
  years : List Int
  tables : List String
deriving DecidableEq, Repr

/-- Pydantic construction of `Eia923Settings`: defaults, then the root
validator `validate_partitions` (dict order: `"tables"` before `"years"`).
`w923Years` stands for `list(pc.WORKING_PARTITIONS["eia923"]["years"])`. -/
def Eia923Settings.construct (w923Years : List Int)
    (years? : Option (List Int)) (tables? : Option (List String)) :
    Except String Eia923Settings := do
  let years := years?.getD w923Years
  let tables := tables?.getD eia923WorkingTables
  let tables ← validate_partition "Eia923Settings" "tables" eia923WorkingTables (some tables)
  let years ← validate_partition "Eia923Settings" "years" w923Years (some years)
  pure ⟨years, tables⟩

/-! ## GlueSettings -/

structure GlueSettings where
  eia : Bool
  ferc1 : Bool
deriving DecidableEq, Repr

/-- Pydantic construction of `GlueSettings`: it has no validators, both
fields default to `True`. -/
def GlueSettings.construct (eia? : Option Bool) (ferc1? : Option Bool) : GlueSettings :=
  ⟨eia?.getD true, ferc1?.getD true⟩

/-! ## EpaCemsSettings -/

/-- `EpaCemsSettings.working_partitions["states"] = sorted(set(EPACEMS_STATES))`;
`epacemsStates` stands for the imported `EPACEMS_STATES`. -/
def epacemsWorkingStates (epacemsStates : List String) : List String :=
  sortedSet epacemsStates

/-- Field validator `EpaCemsSettings.allow_all_keyword`: `["all"]` expands to
the full working-states list. -/
def allow_all_keyword (epacemsStates : List String) (states : List String) : List String :=
  if states = ["all"] then epacemsWorkingStates epacemsStates else states

structure EpaCemsSettings where
  years : List Int
  states : List String
deriving DecidableEq, Repr

/-- Pydantic construction of `EpaCemsSettings`: defaults, the field validator
`allow_all_keyword` on `states`, then the root validator
`validate_partitions` (dict order: `"states"` before `"years"`).
`wYears` stands for `list(pc.WORKING_PARTITIONS["epacems"]["years"])`. -/
def EpaCemsSettings.construct (epacemsStates : List String) (wYears : List Int)
    (years? : Option (List Int)) (states? : Option (List String)) :
    Except String EpaCemsSettings := do
  let years := years?.getD wYears
  let states := states?.getD (epacemsWorkingStates epacemsStates)
  let states := allow_all_keyword epacemsStates states
  let states ← validate_partition "EpaCemsSettings" "states"
    (epacemsWorkingStates epacemsStates) (some states)
  let years ← validate_partition "EpaCemsSettings" "years" wYears (some years)
  pure ⟨years, states⟩

/-! ## EiaSettings -/

structure EiaSettings where
  eia860 : Option Eia860Settings
  eia923 : Option Eia923Settings
deriving DecidableEq, Repr

/-- Pydantic construction of `EiaSettings` with the root validator
`check_eia_dependencies`: eia860 without eia923 auto-builds an
`Eia923Settings` with the two required tables and the eia860 years; eia923
without eia860 auto-builds an `Eia860Settings` with the eia923 years.  A
`None` field stays `None` when both or neither dataset is present. -/
def EiaSettings.construct (w860Years w923Years : List Int)
    (eia860? : Option Eia860Settings) (eia923? : Option Eia923Settings) :
    Except String EiaSettings :=
  match eia923?, eia860? with
  | none, some eia860 => do
    let e923 ← Eia923Settings.construct w923Years (some eia860.years)
      (some ["boiler_fuel_eia923", "generation_eia923"])
    pure ⟨some eia860, some e923⟩
  | some eia923, none => do
    let e860 ← Eia860Settings.construct w860Years (some eia923.years) none none
    pure ⟨some e860, some eia923⟩
  | _, _ => pure ⟨eia860?, eia923?⟩

/-! ## DatasetsSettings -/

structure DatasetsSettings where
  ferc1 : Option Ferc1Settings
  eia : Option EiaSettings
  glue : Option GlueSettings
  epacems : Option EpaCemsSettings
deriving DecidableEq, Repr

/-- Pydantic construction of `DatasetsSettings`: the pre root validator
`default_load_all` (if no dataset was requested, build the default
`Ferc1Settings()` and `EiaSettings()`), then the root validator
`add_glue_settings` (if both ferc1 and eia are present, set
`glue = GlueSettings()`). -/
def DatasetsSettings.construct (wFerc1Years w860Years w923Years : List Int)
    (ferc1? : Option Ferc1Settings) (eia? : Option EiaSettings)
    (glue? : Option GlueSettings) (epacems? : Option EpaCemsSettings) :
    Except String DatasetsSettings := do
  let noneRequested := ferc1?.isNone && eia?.isNone && glue?.isNone && epacems?.isNone
  let (ferc1?, eia?) ←
    if noneRequested then do
      let f ← Ferc1Settings.construct wFerc1Years none none
      let e ← EiaSettings.construct w860Years w923Years none none
      pure (some f, some e)
    else
      pure (ferc1?, eia?)
  let glue? := if ferc1?.isSome && eia?.isSome then some (GlueSettings.construct none none) else glue?
  pure ⟨ferc1?, eia?, glue?, epacems?⟩

/-! ## Ferc1ToSqliteSettings -/

/-- `Ferc1ToSqliteSettings.working_partitions["tables"] =
sorted(list(DBF_TABLES_FILENAMES.keys()))`; `dbfTables` stands for the
imported key list. -/
def ferc1ToSqliteWorkingTables (dbfTables : List String) : List String :=
  List.insertionSort (· ≤ ·) dbfTables

/-- Field validator `Ferc1ToSqliteSettings.check_reference_year`: the
reference year must be one of the working years; the error text names the
refused year and the available years. -/
def check_reference_year (wYears : List Int) (refyear : Int) : Except String Int :=
  if refyear ∉ wYears then
    .error ("Reference year " ++ toString refyear ++
      " is outside the range of available FERC Form 1 data " ++ toString wYears ++ ".")
  else
    .ok refyear

structure Ferc1ToSqliteSettings where
  years : List Int
  tables : List String
  refyear : Int
  bad_cols : List String
deriving DecidableEq, Repr

/-- Pydantic construction of `Ferc1ToSqliteSettings`: defaults
(`refyear = max(working years)`, `bad_cols = ()`), the field validator
`check_reference_year`, then the root validator `validate_partitions`
(dict order: `"tables"` before `"years"`). -/
def Ferc1ToSqliteSettings.construct (dbfTables : List String) (wYears : List Int)
    (years? : Option (List Int)) (tables? : Option (List String))
    (refyear? : Option Int) (bad_cols? : Option (List String)) :
    Except String Ferc1ToSqliteSettings := do
  let years := years?.getD wYears
  let tables := tables?.getD (ferc1ToSqliteWorkingTables dbfTables)
  let refyear := refyear?.getD (listMax wYears)
  let bad_cols := bad_cols?.getD []
  let refyear ← check_reference_year wYears refyear
  let tables ← validate_partition "Ferc1ToSqliteSettings" "tables"
    (ferc1ToSqliteWorkingTables dbfTables) (some tables)
  let years ← validate_partition "Ferc1ToSqliteSettings" "years" wYears (some years)
  pure ⟨years, tables, refyear, bad_cols⟩

/-! ## Immutability configuration -/

/-- `BaseModel.Config.allow_mutation = False` from the source: every settings
model forbids attribute assignment after construction. -/
def Config.allow_mutation : Bool := false

/-- Pydantic `BaseModel.__setattr__` under the shared `Config`: with
`allow_mutation = False` an attribute assignment raises a `TypeError` and no
updated object is produced. -/
def trySetAttr {α : Type} (m : α) (update : α → α) : Except String α :=
  if Config.allow_mutation then .ok (update m)
  else .error "TypeError: Settings models are immutable (allow_mutation is False)"

/-! ## The alembic migration 994e1c2027c0 -/

/-- A database schema: each table name maps to its list of column names. -/
def Schema : Type := String → List String

/-- `batch_op.add_column`: the new column is appended to the table. -/
def add_column (cols : List String) (c : String) : List String := cols ++ [c]

/-- `batch_op.drop_column`: every occurrence of the column is removed. -/
def drop_column (cols : List String) (c : String) : List String :=
  cols.filter (fun x => decide (x ≠ c))

/-- `op.batch_alter_table`: apply the batched operations to one table. -/
def batch_alter_table (s : Schema) (tbl : String) (f : List String → List String) : Schema :=
  fun t => if t = tbl then f (s t) else s t

/-- `upgrade()` of revision 994e1c2027c0: add `ferc_account` then
`row_type_xbrl` to `denorm_electric_operating_revenues_ferc1` and to
`electric_operating_revenues_ferc1`. -/
def upgrade (s : Schema) : Schema :=
  let s := batch_alter_table s "denorm_electric_operating_revenues_ferc1"
    (fun cols => add_column (add_column cols "ferc_account") "row_type_xbrl")
  batch_alter_table s "electric_operating_revenues_ferc1"
    (fun cols => add_column (add_column cols "ferc_account") "row_type_xbrl")

/-- `downgrade()` of revision 994e1c2027c0: drop `row_type_xbrl` then
`ferc_account` from `electric_operating_revenues_ferc1` and from
`denorm_electric_operating_revenues_ferc1`. -/
def downgrade (s : Schema) : Schema :=
  let s := batch_alter_table s "electric_operating_revenues_ferc1"
    (fun cols => drop_column (drop_column cols "row_type_xbrl") "ferc_account")
  batch_alter_table s "denorm_electric_operating_revenues_ferc1"
    (fun cols => drop_column (drop_column cols "row_type_xbrl") "ferc_account")

/-! ## Helper lemmas about `sortedSet` and `validate_partition` -/

theorem mem_sortedSet {α : Type} [DecidableEq α] [LinearOrder α] {l : List α} {x : α} :
    x ∈ sortedSet l ↔ x ∈ l := by
  unfold sortedSet
  rw [(List.perm_insertionSort (· ≤ ·) l.dedup).mem_iff]
  exact List.mem_dedup

theorem sortedSet_sorted {α : Type} [DecidableEq α] [LinearOrder α] (l : List α) :
    (sortedSet l).Sorted (· ≤ ·) :=
  List.sorted_insertionSort (· ≤ ·) l.dedup

theorem sortedSet_nodup {α : Type} [DecidableEq α] [LinearOrder α] (l : List α) :
    (sortedSet l).Nodup :=
  ((List.perm_insertionSort (· ≤ ·) l.dedup).symm).nodup (List.nodup_dedup l)

theorem sortedSet_eq_self {α : Type} [DecidableEq α] [LinearOrder α] {l : List α}
    (hs : l.Sorted (· ≤ ·)) (hn : l.Nodup) : sortedSet l = l := by
  unfold sortedSet
  rw [List.dedup_eq_self.mpr hn]
  exact hs.insertionSort_eq

theorem sortedSet_idem {α : Type} [DecidableEq α] [LinearOrder α] (l : List α) :
    sortedSet (sortedSet l) = sortedSet l :=
  sortedSet_eq_self (sortedSet_sorted l) (sortedSet_nodup l)

theorem mem_notWorking {α : Type} [DecidableEq α] {working p : List α} {x : α} :
    x ∈ notWorking working p ↔ x ∈ p ∧ x ∉ working := by
  unfold notWorking
  rw [List.mem_filter, List.mem_dedup]
  simp

theorem notWorking_eq_nil {α : Type} [DecidableEq α] {working p : List α}
    (h : ∀ x ∈ p, x ∈ working) : notWorking working p = [] := by
  unfold notWorking
  apply List.filter_eq_nil_iff.mpr
  intro a ha
  simp only [decide_eq_true_eq, not_not]
  exact h a (List.mem_dedup.mp ha)

theorem validate_partition_ok {α : Type} [DecidableEq α] [LinearOrder α] [ToString α]
    (clsName fieldName : String) (working p : List α)
    (h : ∀ x ∈ p, x ∈ working) :
    validate_partition clsName fieldName working (some p) = .ok (sortedSet p) := by
  simp only [validate_partition]
  rw [notWorking_eq_nil h]
  simp

theorem validate_partition_bad {α : Type} [DecidableEq α] [LinearOrder α] [ToString α]
    (clsName fieldName : String) (working p : List α)
    (h : ¬ notWorking working p = []) :
    validate_partition clsName fieldName working (some p) =
      .error (notAvailableMsg fieldName (notWorking working p)) := by
  simp only [validate_partition]
  rw [if_pos (List.length_pos.mpr h)]

theorem validate_partition_ok_inv {α : Type} [DecidableEq α] [LinearOrder α] [ToString α]
    {clsName fieldName : String} {working : List α} {part : Option (List α)} {r : List α}
    (h : validate_partition clsName fieldName working part = .ok r) :
    r.Sorted (· ≤ ·) ∧ r.Nodup := by
  cases part with
  | none => simp [validate_partition] at h
  | some p =>
    simp only [validate_partition] at h
    split at h
    · exact absurd h (by simp)
    · obtain rfl : sortedSet p = r := by simpa using h
      exact ⟨sortedSet_sorted p, sortedSet_nodup p⟩

/-! ## Success-shape lemmas for each settings class -/

theorem check_860m_date_false (w860Years : List Int) :
    check_860m_date w860Years false = .ok false := by
  simp [check_860m_date]

theorem ferc1_construct_ok (wYears : List Int)
    (years? : Option (List Int)) (tables? : Option (List String))
    (hy : ∀ x ∈ years?.getD wYears, x ∈ wYears)
    (ht : ∀ x ∈ tables?.getD ferc1WorkingTables, x ∈ ferc1WorkingTables) :
    Ferc1Settings.construct wYears years? tables? =
      .ok ⟨sortedSet (years?.getD wYears), sortedSet (tables?.getD ferc1WorkingTables)⟩ := by
  simp only [Ferc1Settings.construct]
  rw [validate_partition_ok _ _ _ _ ht, validate_partition_ok _ _ _ _ hy]
  rfl

theorem eia860_construct_ok (w860Years : List Int)
    (years? : Option (List Int)) (tables? : Option (List String))
    (hy : ∀ x ∈ years?.getD w860Years, x ∈ w860Years)
    (ht : ∀ x ∈ tables?.getD eia860WorkingTables, x ∈ eia860WorkingTables) :
    Eia860Settings.construct w860Years years? tables? none =
      .ok ⟨sortedSet (years?.getD w860Years), sortedSet (tables?.getD eia860WorkingTables), false⟩ := by
  simp only [Eia860Settings.construct, Option.getD_none]
  rw [check_860m_date_false, validate_partition_ok _ _ _ _ ht,
    validate_partition_ok _ _ _ _ hy]
  rfl

theorem eia923_construct_ok (w923Years : List Int)
    (years? : Option (List Int)) (tables? : Option (List String))
    (hy : ∀ x ∈ years?.getD w923Years, x ∈ w923Years)
    (ht : ∀ x ∈ tables?.getD eia923WorkingTables, x ∈ eia923WorkingTables) :
    Eia923Settings.construct w923Years years? tables? =
      .ok ⟨sortedSet (years?.getD w923Years), sortedSet (tables?.getD eia923WorkingTables)⟩ := by
  simp only [Eia923Settings.construct]
  rw [validate_partition_ok _ _ _ _ ht, validate_partition_ok _ _ _ _ hy]
  rfl

theorem epacems_construct_ok (epacemsStates : List String) (wYears : List Int)
    (years? : Option (List Int)) (states? : Option (List String))
    (hy : ∀ x ∈ years?.getD wYears, x ∈ wYears)
    (hs : ∀ x ∈ states?.getD (epacemsWorkingStates epacemsStates),
      x ∈ epacemsWorkingStates epacemsStates)
    (hne : states?.getD (epacemsWorkingStates epacemsStates) ≠ ["all"]) :
    EpaCemsSettings.construct epacemsStates wYears years? states? =
      .ok ⟨sortedSet (years?.getD wYears),
        sortedSet (states?.getD (epacemsWorkingStates epacemsStates))⟩ := by
  simp only [EpaCemsSettings.construct, allow_all_keyword]
  rw [if_neg hne, validate_partition_ok _ _ _ _ hs, validate_partition_ok _ _ _ _ hy]
  rfl

theorem ferc1ToSqlite_construct_ok (dbfTables : List String) (wYears : List Int)
    (years? : Option (List Int)) (tables? : Option (List String))
    (refyear? : Option Int) (bad_cols? : Option (List String))
    (hy : ∀ x ∈ years?.getD wYears, x ∈ wYears)
    (ht : ∀ x ∈ tables?.getD (ferc1ToSqliteWorkingTables dbfTables),
      x ∈ ferc1ToSqliteWorkingTables dbfTables)
    (href : refyear?.getD (listMax wYears) ∈ wYears) :
    Ferc1ToSqliteSettings.construct dbfTables wYears years? tables? refyear? bad_cols? =
      .ok ⟨sortedSet (years?.getD wYears),
        sortedSet (tables?.getD (ferc1ToSqliteWorkingTables dbfTables)),
        refyear?.getD (listMax wYears), bad_cols?.getD []⟩ := by
  simp only [Ferc1ToSqliteSettings.construct, check_reference_year]
  rw [if_neg (by simpa using href), validate_partition_ok _ _ _ _ ht,
    validate_partition_ok _ _ _ _ hy]
  rfl

theorem mem_sortedSet_inter {α : Type} [DecidableEq α] [LinearOrder α]
    {working p : List α} (h : ∀ x ∈ p, x ∈ working) (x : α) :
    x ∈ sortedSet p ↔ x ∈ p ∧ x ∈ working := by
  rw [mem_sortedSet]
  exact ⟨fun hx => ⟨hx, h x hx⟩, fun hx => hx.1⟩

theorem mem_ferc1WorkingTables {x : String} :
    x ∈ ferc1WorkingTables ↔ x ∈ ferc1TablesRaw :=
  (List.perm_insertionSort (· ≤ ·) ferc1TablesRaw).mem_iff

theorem mem_eia860WorkingTables {x : String} :
    x ∈ eia860WorkingTables ↔ x ∈ eia860TablesRaw :=
  (List.perm_insertionSort (· ≤ ·) eia860TablesRaw).mem_iff

theorem mem_eia923WorkingTables {x : String} :
    x ∈ eia923WorkingTables ↔ x ∈ eia923TablesRaw :=
  (List.perm_insertionSort (· ≤ ·) eia923TablesRaw).mem_iff

theorem sortedSet_of_insertionSort {α : Type} [DecidableEq α] [LinearOrder α]
    (l : List α) (hn : l.Nodup) :
    sortedSet (List.insertionSort (· ≤ ·) l) = List.insertionSort (· ≤ ·) l :=
  sortedSet_eq_self (List.sorted_insertionSort _ l)
    (((List.perm_insertionSort (· ≤ ·) l).symm).nodup hn)

theorem requiredEia923Tables_sortedSet :
    sortedSet ["boiler_fuel_eia923", "generation_eia923"] =
      ["boiler_fuel_eia923", "generation_eia923"] := by
  apply sortedSet_eq_self
  · have hbg : ("boiler_fuel_eia923" : String) ≤ "generation_eia923" :=
      le_of_lt (String.lt_iff_toList_lt.mpr (by decide))
    refine List.sorted_cons.mpr ⟨?_, List.sorted_singleton _⟩
    intro b hb
    rw [List.mem_singleton] at hb
    subst hb
    exact hbg
  · decide

/-! ## Claim C1 -/

/-- C1 counterexample: requesting a table outside the working-partition list
makes validation fail with an error; no settings record with the intersection
(here, the empty table list) is produced, so validation does not succeed for
every requested list. -/
theorem C1_counterexample :
    Ferc1Settings.construct [] (some [1999]) (some []) =
      .error "[1999] years are not available." := by
  rfl

/-- C1 (amended): for every requested list of years, tables, or states all of
whose values lie in the corresponding working-partition list (and, for EPA
CEMS, that is not the special keyword list `["all"]`), validation succeeds
and the resulting field is `sorted(set(requested))`, whose members are
exactly the intersection of the requested list with the working-partition
list.  This covers Ferc1Settings, Eia860Settings, Eia923Settings,
EpaCemsSettings and Ferc1ToSqliteSettings. -/
theorem C1_intersection
    (wFerc1Years w860Years w923Years wCemsYears wSqlYears : List Int)
    (epacemsStates dbfTables : List String)
    (fYears : List Int) (fTables : List String)
    (aYears : List Int) (aTables : List String)
    (bYears : List Int) (bTables : List String)
    (cYears : List Int) (cStates : List String)
    (sYears : List Int) (sTables : List String) (sRefyear : Int)
    (hf1 : ∀ x ∈ fYears, x ∈ wFerc1Years)
    (hf2 : ∀ x ∈ fTables, x ∈ ferc1WorkingTables)
    (ha1 : ∀ x ∈ aYears, x ∈ w860Years)
    (ha2 : ∀ x ∈ aTables, x ∈ eia860WorkingTables)
    (hb1 : ∀ x ∈ bYears, x ∈ w923Years)
    (hb2 : ∀ x ∈ bTables, x ∈ eia923WorkingTables)
    (hc1 : ∀ x ∈ cYears, x ∈ wCemsYears)
    (hc2 : ∀ x ∈ cStates, x ∈ epacemsWorkingStates epacemsStates)
    (hc3 : cStates ≠ ["all"])
    (hs1 : ∀ x ∈ sYears, x ∈ wSqlYears)
    (hs2 : ∀ x ∈ sTables, x ∈ ferc1ToSqliteWorkingTables dbfTables)
    (hs3 : sRefyear ∈ wSqlYears) :
    (Ferc1Settings.construct wFerc1Years (some fYears) (some fTables) =
        .ok ⟨sortedSet fYears, sortedSet fTables⟩
      ∧ (∀ x, x ∈ sortedSet fYears ↔ x ∈ fYears ∧ x ∈ wFerc1Years)
      ∧ (∀ x, x ∈ sortedSet fTables ↔ x ∈ fTables ∧ x ∈ ferc1WorkingTables))
    ∧ (Eia860Settings.construct w860Years (some aYears) (some aTables) none =
        .ok ⟨sortedSet aYears, sortedSet aTables, false⟩
      ∧ (∀ x, x ∈ sortedSet aYears ↔ x ∈ aYears ∧ x ∈ w860Years)
      ∧ (∀ x, x ∈ sortedSet aTables ↔ x ∈ aTables ∧ x ∈ eia860WorkingTables))
    ∧ (Eia923Settings.construct w923Years (some bYears) (some bTables) =
        .ok ⟨sortedSet bYears, sortedSet bTables⟩
      ∧ (∀ x, x ∈ sortedSet bYears ↔ x ∈ bYears ∧ x ∈ w923Years)
      ∧ (∀ x, x ∈ sortedSet bTables ↔ x ∈ bTables ∧ x ∈ eia923WorkingTables))
    ∧ (EpaCemsSettings.construct epacemsStates wCemsYears (some cYears) (some cStates) =
        .ok ⟨sortedSet cYears, sortedSet cStates⟩
      ∧ (∀ x, x ∈ sortedSet cYears ↔ x ∈ cYears ∧ x ∈ wCemsYears)
      ∧ (∀ x, x ∈ sortedSet cStates ↔ x ∈ cStates ∧ x ∈ epacemsWorkingStates epacemsStates))
    ∧ (Ferc1ToSqliteSettings.construct dbfTables wSqlYears (some sYears) (some sTables)
          (some sRefyear) none =
        .ok ⟨sortedSet sYears, sortedSet sTables, sRefyear, []⟩
      ∧ (∀ x, x ∈ sortedSet sYears ↔ x ∈ sYears ∧ x ∈ wSqlYears)
      ∧ (∀ x, x ∈ sortedSet sTables ↔ x ∈ sTables ∧ x ∈ ferc1ToSqliteWorkingTables dbfTables)) :=
  ⟨⟨ferc1_construct_ok _ (some fYears) (some fTables) hf1 hf2,
      mem_sortedSet_inter hf1, mem_sortedSet_inter hf2⟩,
    ⟨eia860_construct_ok _ (some aYears) (some aTables) ha1 ha2,
      mem_sortedSet_inter ha1, mem_sortedSet_inter ha2⟩,
    ⟨eia923_construct_ok _ (some bYears) (some bTables) hb1 hb2,
      mem_sortedSet_inter hb1, mem_sortedSet_inter hb2⟩,
    ⟨epacems_construct_ok _ _ (some cYears) (some cStates) hc1 hc2 hc3,
      mem_sortedSet_inter hc1, mem_sortedSet_inter hc2⟩,
    ⟨ferc1ToSqlite_construct_ok _ _ (some sYears) (some sTables) (some sRefyear) none
        hs1 hs2 hs3,
      mem_sortedSet_inter hs1, mem_sortedSet_inter hs2⟩⟩

/-- C1 witness: the amended statement applied at concrete inputs, every
hypothesis discharged by evaluation. -/
theorem C1_witness :
    (Ferc1Settings.construct [1994] (some [1994]) (some ["fuel_ferc1"]) =
        .ok ⟨sortedSet [1994], sortedSet ["fuel_ferc1"]⟩
      ∧ (∀ x, x ∈ sortedSet [(1994 : Int)] ↔ x ∈ [(1994 : Int)] ∧ x ∈ [(1994 : Int)])
      ∧ (∀ x, x ∈ sortedSet ["fuel_ferc1"] ↔ x ∈ ["fuel_ferc1"] ∧ x ∈ ferc1WorkingTables))
    ∧ (Eia860Settings.construct [2001] (some [2001]) (some ["plants_eia860"]) none =
        .ok ⟨sortedSet [2001], sortedSet ["plants_eia860"], false⟩
      ∧ (∀ x, x ∈ sortedSet [(2001 : Int)] ↔ x ∈ [(2001 : Int)] ∧ x ∈ [(2001 : Int)])
      ∧ (∀ x, x ∈ sortedSet ["plants_eia860"] ↔ x ∈ ["plants_eia860"] ∧ x ∈ eia860WorkingTables))
    ∧ (Eia923Settings.construct [2002] (some [2002]) (some ["generation_eia923"]) =
        .ok ⟨sortedSet [2002], sortedSet ["generation_eia923"]⟩
      ∧ (∀ x, x ∈ sortedSet [(2002 : Int)] ↔ x ∈ [(2002 : Int)] ∧ x ∈ [(2002 : Int)])
      ∧ (∀ x, x ∈ sortedSet ["generation_eia923"] ↔
          x ∈ ["generation_eia923"] ∧ x ∈ eia923WorkingTables))
    ∧ (EpaCemsSettings.construct ["TX"] [1995] (some [1995]) (some ["TX"]) =
        .ok ⟨sortedSet [1995], sortedSet ["TX"]⟩
      ∧ (∀ x, x ∈ sortedSet [(1995 : Int)] ↔ x ∈ [(1995 : Int)] ∧ x ∈ [(1995 : Int)])
      ∧ (∀ x, x ∈ sortedSet ["TX"] ↔ x ∈ ["TX"] ∧ x ∈ epacemsWorkingStates ["TX"]))
    ∧ (Ferc1ToSqliteSettings.construct ["f1_fuel"] [1994] (some [1994]) (some ["f1_fuel"])
          (some 1994) none =
        .ok ⟨sortedSet [1994], sortedSet ["f1_fuel"], 1994, []⟩
      ∧ (∀ x, x ∈ sortedSet [(1994 : Int)] ↔ x ∈ [(1994 : Int)] ∧ x ∈ [(1994 : Int)])
      ∧ (∀ x, x ∈ sortedSet ["f1_fuel"] ↔
          x ∈ ["f1_fuel"] ∧ x ∈ ferc1ToSqliteWorkingTables ["f1_fuel"])) :=
  C1_intersection [1994] [2001] [2002] [1995] [1994] ["TX"] ["f1_fuel"]
    [1994] ["fuel_ferc1"] [2001] ["plants_eia860"] [2002] ["generation_eia923"]
    [1995] ["TX"] [1994] ["f1_fuel"] 1994
    (by decide)
    (by
      intro x hx
      rw [List.mem_singleton] at hx
      subst hx
      exact mem_ferc1WorkingTables.mpr (by decide))
    (by decide)
    (by
      intro x hx
      rw [List.mem_singleton] at hx
      subst hx
      exact mem_eia860WorkingTables.mpr (by decide))
    (by decide)
    (by
      intro x hx
      rw [List.mem_singleton] at hx
      subst hx
      exact mem_eia923WorkingTables.mpr (by decide))
    (by decide) (by decide) (by decide) (by decide) (by decide) (by decide)

/-! ## Claim C3 -/

/-- C3: an EiaSettings built with eia860 settings and no eia923 settings
auto-populates eia923 with exactly the two required EIA923 tables
(`boiler_fuel_eia923` and `generation_eia923`) and the eia860 years.  The
hypotheses say the eia860 record carries validated (sorted, deduplicated)
years that are working EIA923 years; otherwise the nested construction
itself raises and no EiaSettings exists. -/
theorem C3_eia860_implies_eia923 (w860Years w923Years : List Int) (s : Eia860Settings)
    (hy : ∀ x ∈ s.years, x ∈ w923Years)
    (hcanon : sortedSet s.years = s.years) :
    EiaSettings.construct w860Years w923Years (some s) none =
      .ok ⟨some s, some ⟨s.years, ["boiler_fuel_eia923", "generation_eia923"]⟩⟩ := by
  have ht : ∀ x ∈ ["boiler_fuel_eia923", "generation_eia923"], x ∈ eia923WorkingTables := by
    intro x hx
    rw [mem_eia923WorkingTables]
    simp only [List.mem_cons, List.not_mem_nil, or_false] at hx
    rcases hx with rfl | rfl
    · decide
    · decide
  have h923 := eia923_construct_ok w923Years (some s.years)
    (some ["boiler_fuel_eia923", "generation_eia923"]) hy ht
  simp only [Option.getD_some] at h923
  rw [hcanon, requiredEia923Tables_sortedSet] at h923
  simp only [EiaSettings.construct]
  rw [h923]
  rfl

/-- C3 witness: the statement applied at a concrete validated eia860 record. -/
theorem C3_witness :
    EiaSettings.construct [2001] [2001] (some ⟨[2001], eia860WorkingTables, false⟩) none =
      .ok ⟨some ⟨[2001], eia860WorkingTables, false⟩,
        some ⟨[2001], ["boiler_fuel_eia923", "generation_eia923"]⟩⟩ :=
  C3_eia860_implies_eia923 [2001] [2001] ⟨[2001], eia860WorkingTables, false⟩
    (by decide) (by decide)

/-! ## Claim C4 -/

/-- C4: constructing DatasetsSettings with no dataset requested defaults the
configuration to FERC1 and EIA: the result carries exactly the default
`Ferc1Settings()` and the default `EiaSettings()` (whose two fields both stay
`None`); `add_glue_settings` then also fills in the default glue record. -/
theorem C4_default_load_all (wFerc1Years w860Years w923Years : List Int) :
    DatasetsSettings.construct wFerc1Years w860Years w923Years none none none none =
      .ok ⟨some ⟨sortedSet wFerc1Years, sortedSet ferc1WorkingTables⟩,
        some ⟨none, none⟩, some ⟨true, true⟩, none⟩
    ∧ Ferc1Settings.construct wFerc1Years none none =
        .ok ⟨sortedSet wFerc1Years, sortedSet ferc1WorkingTables⟩
    ∧ EiaSettings.construct w860Years w923Years none none = .ok ⟨none, none⟩ := by
  have hferc1 : Ferc1Settings.construct wFerc1Years none none =
      .ok ⟨sortedSet wFerc1Years, sortedSet ferc1WorkingTables⟩ :=
    ferc1_construct_ok wFerc1Years none none (fun x hx => hx) (fun x hx => hx)
  refine ⟨?_, hferc1, rfl⟩
  simp only [DatasetsSettings.construct]
  rw [hferc1]
  rfl

/-! ## Claim C5 -/

/-- C5: constructing EpaCemsSettings with `states = ["all"]` expands the
states field to the full known working-states list
`sorted(set(EPACEMS_STATES))`. -/
theorem C5_allow_all (epacemsStates : List String) (wYears : List Int)
    (years? : Option (List Int)) (hy : ∀ x ∈ years?.getD wYears, x ∈ wYears) :
    EpaCemsSettings.construct epacemsStates wYears years? (some ["all"]) =
      .ok ⟨sortedSet (years?.getD wYears), epacemsWorkingStates epacemsStates⟩ := by
  have h1 : allow_all_keyword epacemsStates ["all"] = epacemsWorkingStates epacemsStates := by
    simp [allow_all_keyword]
  simp only [EpaCemsSettings.construct, Option.getD_some, h1]
  rw [validate_partition_ok _ _ _ _ (fun x hx => hx),
    validate_partition_ok _ _ _ _ hy,
    show sortedSet (epacemsWorkingStates epacemsStates) =
      epacemsWorkingStates epacemsStates from sortedSet_idem epacemsStates]
  rfl

/-- C5 witness: the statement applied at concrete inputs. -/
theorem C5_witness :
    EpaCemsSettings.construct ["TX", "AL", "TX"] [1995] none (some ["all"]) =
      .ok ⟨sortedSet ((none : Option (List Int)).getD [1995]),
        epacemsWorkingStates ["TX", "AL", "TX"]⟩ :=
  C5_allow_all ["TX", "AL", "TX"] [1995] none (by decide)

/-! ## Claim C2 -/

theorem drop_column_of_not_mem {cols : List String} {c : String} (h : c ∉ cols) :
    drop_column cols c = cols := by
  unfold drop_column
  apply List.filter_eq_self.mpr
  intro a ha
  simp only [decide_eq_true_eq]
  exact fun he => h (he ▸ ha)

theorem drop_column_append (l1 l2 : List String) (c : String) :
    drop_column (l1 ++ l2) c = drop_column l1 c ++ drop_column l2 c :=
  List.filter_append l1 l2

theorem drop_column_singleton_self (c : String) : drop_column [c] c = [] := by
  simp [drop_column]

theorem drop_column_singleton_ne {c d : String} (h : d ≠ c) : drop_column [d] c = [d] := by
  simp [drop_column, h]

theorem drop_add_cancel (cols : List String) {a b : String}
    (ha : a ∉ cols) (hb : b ∉ cols) (hab : a ≠ b) :
    drop_column (drop_column (add_column (add_column cols a) b) b) a = cols := by
  have h1 : drop_column (add_column (add_column cols a) b) b = cols ++ [a] := by
    show drop_column ((cols ++ [a]) ++ [b]) b = cols ++ [a]
    rw [drop_column_append, drop_column_append, drop_column_of_not_mem hb,
      drop_column_singleton_ne hab, drop_column_singleton_self, List.append_nil]
  have h2 : drop_column (cols ++ [a]) a = cols := by
    rw [drop_column_append, drop_column_of_not_mem ha, drop_column_singleton_self,
      List.append_nil]
  rw [h1, h2]

theorem mem_add_columns {cols : List String} {a b c : String} :
    c ∈ add_column (add_column cols a) b ↔ c ∈ cols ∨ c = a ∨ c = b := by
  show c ∈ (cols ++ [a]) ++ [b] ↔ _
  simp [or_assoc]

/-- C2: running the migration upgrade then downgrade restores every table's
column list, provided the two added columns were not already present; and
the columns upgrade adds are exactly `ferc_account` and `row_type_xbrl` on
exactly the two affected tables — the very columns downgrade drops. -/
theorem C2_upgrade_downgrade (s : Schema)
    (h1 : "ferc_account" ∉ s "denorm_electric_operating_revenues_ferc1")
    (h2 : "row_type_xbrl" ∉ s "denorm_electric_operating_revenues_ferc1")
    (h3 : "ferc_account" ∉ s "electric_operating_revenues_ferc1")
    (h4 : "row_type_xbrl" ∉ s "electric_operating_revenues_ferc1") :
    (∀ t, downgrade (upgrade s) t = s t)
    ∧ (∀ t c, c ∈ upgrade s t ↔
        c ∈ s t ∨ ((t = "denorm_electric_operating_revenues_ferc1"
            ∨ t = "electric_operating_revenues_ferc1")
          ∧ (c = "ferc_account" ∨ c = "row_type_xbrl"))) := by
  have hab : ("ferc_account" : String) ≠ "row_type_xbrl" := by decide
  constructor
  · intro t
    simp only [upgrade, downgrade, batch_alter_table]
    by_cases he : t = "electric_operating_revenues_ferc1"
    · subst he
      rw [if_neg (by decide), if_pos rfl, if_pos rfl, if_neg (by decide)]
      exact drop_add_cancel _ h3 h4 hab
    · by_cases hd : t = "denorm_electric_operating_revenues_ferc1"
      · subst hd
        rw [if_pos rfl, if_neg (by decide), if_neg (by decide), if_pos rfl]
        exact drop_add_cancel _ h1 h2 hab
      · rw [if_neg hd, if_neg he, if_neg he, if_neg hd]
  · intro t c
    simp only [upgrade, batch_alter_table]
    by_cases he : t = "electric_operating_revenues_ferc1"
    · subst he
      rw [if_pos rfl, if_neg (by decide)]
      rw [mem_add_columns]
      simp
    · by_cases hd : t = "denorm_electric_operating_revenues_ferc1"
      · subst hd
        rw [if_neg (by decide), if_pos rfl]
        rw [mem_add_columns]
        simp
      · rw [if_neg he, if_neg hd]
        simp [hd, he]

/-- C2 witness: the statement applied to a concrete one-column schema. -/
theorem C2_witness :
    (∀ t, downgrade (upgrade (fun _ => ["record_id"])) t =
      (fun _ : String => ["record_id"]) t)
    ∧ (∀ t c, c ∈ upgrade (fun _ => ["record_id"]) t ↔
        c ∈ (fun _ : String => ["record_id"]) t ∨
          ((t = "denorm_electric_operating_revenues_ferc1"
            ∨ t = "electric_operating_revenues_ferc1")
          ∧ (c = "ferc_account" ∨ c = "row_type_xbrl"))) :=
  C2_upgrade_downgrade (fun _ => ["record_id"])
    (by decide) (by decide) (by decide) (by decide)

/-! ## Claim C6 -/

/-- C6 counterexample: for a rejected partition request the raised error is
identical under two different working-partition (allowed) sets, and its text
carries the offending values and the field, not the allowed set — so the
error does not identify the allowed set of values as the claim states. -/
theorem C6_counterexample :
    validate_partition "Ferc1Settings" "years" ([2000] : List Int) (some [1999]) =
      .error "[1999] years are not available."
    ∧ validate_partition "Ferc1Settings" "years" ([2020] : List Int) (some [1999]) =
      .error "[1999] years are not available." :=
  ⟨rfl, rfl⟩

/-- C6 (amended): a requested partition value outside the working set makes
validation fail with an error naming the invalid field and the offending
(non-working) values; a missing required partition field fails with an error
naming the class and the field; the reference-year check's error does name
the allowed set; in each case only an error — never a settings object — is
produced. -/
theorem C6_error_handling
    (clsName fieldName : String) (working p : List Int)
    (tReq : List String) (wYears : List Int) (refyear : Int)
    (years? : Option (List Int))
    (hbad : notWorking working p ≠ [])
    (hbadT : notWorking ferc1WorkingTables tReq ≠ [])
    (href : refyear ∉ wYears) :
    (validate_partition clsName fieldName working (some p) =
        .error (notAvailableMsg fieldName (notWorking working p))
      ∧ (∀ x, x ∈ notWorking working p ↔ x ∈ p ∧ x ∉ working))
    ∧ validate_partition clsName fieldName working none =
        .error (missingFieldMsg clsName fieldName)
    ∧ Ferc1Settings.construct wYears years? (some tReq) =
        .error (notAvailableMsg "tables" (notWorking ferc1WorkingTables tReq))
    ∧ check_reference_year wYears refyear =
        .error ("Reference year " ++ toString refyear ++
          " is outside the range of available FERC Form 1 data " ++
          toString wYears ++ ".") := by
  refine ⟨⟨validate_partition_bad _ _ _ _ hbad, fun x => mem_notWorking⟩, rfl, ?_, ?_⟩
  · simp only [Ferc1Settings.construct, Option.getD_some]
    rw [validate_partition_bad _ _ _ _ hbadT]
    rfl
  · simp only [check_reference_year]
    rw [if_pos href]

/-- C6 witness: the amended statement applied at concrete inputs. -/
theorem C6_witness :
    (validate_partition "Ferc1Settings" "years" ([2000] : List Int) (some [1999]) =
        .error (notAvailableMsg "years" (notWorking ([2000] : List Int) [1999]))
      ∧ (∀ x, x ∈ notWorking ([2000] : List Int) [1999] ↔
          x ∈ [(1999 : Int)] ∧ x ∉ ([2000] : List Int)))
    ∧ validate_partition "Ferc1Settings" "years" ([2000] : List Int) none =
        .error (missingFieldMsg "Ferc1Settings" "years")
    ∧ Ferc1Settings.construct [1994] none (some ["bogus"]) =
        .error (notAvailableMsg "tables" (notWorking ferc1WorkingTables ["bogus"]))
    ∧ check_reference_year [1994] 2000 =
        .error ("Reference year " ++ toString (2000 : Int) ++
          " is outside the range of available FERC Form 1 data " ++
          toString [(1994 : Int)] ++ ".") :=
  C6_error_handling "Ferc1Settings" "years" [2000] [1999] ["bogus"] [1994] 2000 none
    (by decide)
    (by
      intro hnil
      have hmem : "bogus" ∈ notWorking ferc1WorkingTables ["bogus"] :=
        mem_notWorking.mpr ⟨by decide,
          fun hw => absurd (mem_ferc1WorkingTables.mp hw) (by decide)⟩
      rw [hnil] at hmem
      exact absurd hmem (by decide))
    (by decide)

/-! ## Claim C7 -/

/-- C7: settings records are immutable once constructed: under the shared
pydantic config `allow_mutation = False`, every attribute-assignment attempt
on a record of any settings type raises a `TypeError` and no updated record
is ever produced. -/
theorem C7_immutable {α : Type} (m : α) (update : α → α) :
    trySetAttr m update =
      .error "TypeError: Settings models are immutable (allow_mutation is False)"
    ∧ ∀ m2, trySetAttr m update ≠ .ok m2 :=
  ⟨rfl, fun m2 h => by simp [trySetAttr, Config.allow_mutation] at h⟩

/-! ## Claim C8 -/

theorem except_bind_ok {ε α β : Type} {x : Except ε α} {g : α → Except ε β} {b : β}
    (h : (x >>= g) = .ok b) : ∃ a, x = .ok a ∧ g a = .ok b := by
  cases x with
  | error e => simp [Bind.bind, Except.bind] at h
  | ok a =>
    refine ⟨a, rfl, ?_⟩
    simpa [Bind.bind, Except.bind] using h

theorem ferc1_construct_sorted {wYears : List Int}
    {years? : Option (List Int)} {tables? : Option (List String)} {f : Ferc1Settings}
    (h : Ferc1Settings.construct wYears years? tables? = .ok f) :
    f.years.Sorted (· ≤ ·) ∧ f.years.Nodup ∧ f.tables.Sorted (· ≤ ·) ∧ f.tables.Nodup := by
  simp only [Ferc1Settings.construct] at h
  obtain ⟨tv, htv, h⟩ := except_bind_ok h
  obtain ⟨yv, hyv, h⟩ := except_bind_ok h
  obtain rfl : (⟨yv, tv⟩ : Ferc1Settings) = f := by simpa [pure, Except.pure] using h
  obtain ⟨ht1, ht2⟩ := validate_partition_ok_inv htv
  obtain ⟨hy1, hy2⟩ := validate_partition_ok_inv hyv
  exact ⟨hy1, hy2, ht1, ht2⟩

theorem eia860_construct_sorted {w860Years : List Int}
    {years? : Option (List Int)} {tables? : Option (List String)} {eia860m? : Option Bool}
    {a : Eia860Settings}
    (h : Eia860Settings.construct w860Years years? tables? eia860m? = .ok a) :
    a.years.Sorted (· ≤ ·) ∧ a.years.Nodup ∧ a.tables.Sorted (· ≤ ·) ∧ a.tables.Nodup := by
  simp only [Eia860Settings.construct] at h
  obtain ⟨mv, hmv, h⟩ := except_bind_ok h
  obtain ⟨tv, htv, h⟩ := except_bind_ok h
  obtain ⟨yv, hyv, h⟩ := except_bind_ok h
  obtain rfl : (⟨yv, tv, mv⟩ : Eia860Settings) = a := by simpa [pure, Except.pure] using h
  obtain ⟨ht1, ht2⟩ := validate_partition_ok_inv htv
  obtain ⟨hy1, hy2⟩ := validate_partition_ok_inv hyv
  exact ⟨hy1, hy2, ht1, ht2⟩

theorem eia923_construct_sorted {w923Years : List Int}
    {years? : Option (List Int)} {tables? : Option (List String)} {b : Eia923Settings}
    (h : Eia923Settings.construct w923Years years? tables? = .ok b) :
    b.years.Sorted (· ≤ ·) ∧ b.years.Nodup ∧ b.tables.Sorted (· ≤ ·) ∧ b.tables.Nodup := by
  simp only [Eia923Settings.construct] at h
  obtain ⟨tv, htv, h⟩ := except_bind_ok h
  obtain ⟨yv, hyv, h⟩ := except_bind_ok h
  obtain rfl : (⟨yv, tv⟩ : Eia923Settings) = b := by simpa [pure, Except.pure] using h
  obtain ⟨ht1, ht2⟩ := validate_partition_ok_inv htv
  obtain ⟨hy1, hy2⟩ := validate_partition_ok_inv hyv
  exact ⟨hy1, hy2, ht1, ht2⟩

theorem epacems_construct_sorted {epacemsStates : List String} {wYears : List Int}
    {years? : Option (List Int)} {states? : Option (List String)} {c : EpaCemsSettings}
    (h : EpaCemsSettings.construct epacemsStates wYears years? states? = .ok c) :
    c.years.Sorted (· ≤ ·) ∧ c.years.Nodup ∧ c.states.Sorted (· ≤ ·) ∧ c.states.Nodup := by
  simp only [EpaCemsSettings.construct] at h
  obtain ⟨sv, hsv, h⟩ := except_bind_ok h
  obtain ⟨yv, hyv, h⟩ := except_bind_ok h
  obtain rfl : (⟨yv, sv⟩ : EpaCemsSettings) = c := by simpa [pure, Except.pure] using h
  obtain ⟨hs1, hs2⟩ := validate_partition_ok_inv hsv
  obtain ⟨hy1, hy2⟩ := validate_partition_ok_inv hyv
  exact ⟨hy1, hy2, hs1, hs2⟩

theorem ferc1ToSqlite_construct_sorted {dbfTables : List String} {wYears : List Int}
    {years? : Option (List Int)} {tables? : Option (List String)}
    {refyear? : Option Int} {bad_cols? : Option (List String)} {q : Ferc1ToSqliteSettings}
    (h : Ferc1ToSqliteSettings.construct dbfTables wYears years? tables? refyear? bad_cols? =
      .ok q) :
    q.years.Sorted (· ≤ ·) ∧ q.years.Nodup ∧ q.tables.Sorted (· ≤ ·) ∧ q.tables.Nodup := by
  simp only [Ferc1ToSqliteSettings.construct] at h
  obtain ⟨rv, hrv, h⟩ := except_bind_ok h
  obtain ⟨tv, htv, h⟩ := except_bind_ok h
  obtain ⟨yv, hyv, h⟩ := except_bind_ok h
  obtain rfl : (⟨yv, tv, rv, bad_cols?.getD []⟩ : Ferc1ToSqliteSettings) = q := by
    simpa [pure, Except.pure] using h
  obtain ⟨ht1, ht2⟩ := validate_partition_ok_inv htv
  obtain ⟨hy1, hy2⟩ := validate_partition_ok_inv hyv
  exact ⟨hy1, hy2, ht1, ht2⟩

/-- C8: every partition-list field (years, tables, states) of every
successfully validated dataset-settings record is sorted ascending with no
duplicates, whatever the requested lists were, because `validate_partitions`
stores `sorted(set(partition))`. -/
theorem C8_sorted_nodup
    (wF w8 w9 wC wS : List Int) (cems dbf : List String)
    (fy? : Option (List Int)) (ft? : Option (List String)) (f : Ferc1Settings)
    (ay? : Option (List Int)) (atb? : Option (List String)) (am? : Option Bool)
    (a : Eia860Settings)
    (gy? : Option (List Int)) (gt? : Option (List String)) (g : Eia923Settings)
    (cy? : Option (List Int)) (cs? : Option (List String)) (c : EpaCemsSettings)
    (qy? : Option (List Int)) (qt? : Option (List String)) (qr? : Option Int)
    (qb? : Option (List String)) (q : Ferc1ToSqliteSettings)
    (hf : Ferc1Settings.construct wF fy? ft? = .ok f)
    (ha : Eia860Settings.construct w8 ay? atb? am? = .ok a)
    (hg : Eia923Settings.construct w9 gy? gt? = .ok g)
    (hc : EpaCemsSettings.construct cems wC cy? cs? = .ok c)
    (hq : Ferc1ToSqliteSettings.construct dbf wS qy? qt? qr? qb? = .ok q) :
    (f.years.Sorted (· ≤ ·) ∧ f.years.Nodup ∧ f.tables.Sorted (· ≤ ·) ∧ f.tables.Nodup)
    ∧ (a.years.Sorted (· ≤ ·) ∧ a.years.Nodup ∧ a.tables.Sorted (· ≤ ·) ∧ a.tables.Nodup)
    ∧ (g.years.Sorted (· ≤ ·) ∧ g.years.Nodup ∧ g.tables.Sorted (· ≤ ·) ∧ g.tables.Nodup)
    ∧ (c.years.Sorted (· ≤ ·) ∧ c.years.Nodup ∧ c.states.Sorted (· ≤ ·) ∧ c.states.Nodup)
    ∧ (q.years.Sorted (· ≤ ·) ∧ q.years.Nodup ∧ q.tables.Sorted (· ≤ ·) ∧ q.tables.Nodup) :=
  ⟨ferc1_construct_sorted hf, eia860_construct_sorted ha,
    eia923_construct_sorted hg, epacems_construct_sorted hc,
    ferc1ToSqlite_construct_sorted hq⟩

/-- C8 witness: the statement applied at concrete constructions, each shown
to succeed by evaluation; duplicated and unsorted requests are included. -/
theorem C8_witness :
    (([(1994 : Int)].Sorted (· ≤ ·) ∧ [(1994 : Int)].Nodup
      ∧ ["fuel_ferc1"].Sorted (· ≤ ·) ∧ ["fuel_ferc1"].Nodup)
    ∧ ([(2001 : Int)].Sorted (· ≤ ·) ∧ [(2001 : Int)].Nodup
      ∧ ["plants_eia860"].Sorted (· ≤ ·) ∧ ["plants_eia860"].Nodup)
    ∧ ([(2001 : Int), 2002].Sorted (· ≤ ·) ∧ [(2001 : Int), 2002].Nodup
      ∧ ["generation_eia923"].Sorted (· ≤ ·) ∧ ["generation_eia923"].Nodup)
    ∧ ([(1995 : Int)].Sorted (· ≤ ·) ∧ [(1995 : Int)].Nodup
      ∧ ["TX"].Sorted (· ≤ ·) ∧ ["TX"].Nodup)
    ∧ ([(1994 : Int)].Sorted (· ≤ ·) ∧ [(1994 : Int)].Nodup
      ∧ ["f1_fuel"].Sorted (· ≤ ·) ∧ ["f1_fuel"].Nodup)) :=
  C8_sorted_nodup [1994] [2001] [2001, 2002] [1995] [1994] ["TX"] ["f1_fuel"]
    (some [1994, 1994]) (some ["fuel_ferc1"]) ⟨[1994], ["fuel_ferc1"]⟩
    (some [2001]) (some ["plants_eia860"]) none ⟨[2001], ["plants_eia860"], false⟩
    (some [2002, 2001, 2002]) (some ["generation_eia923"]) ⟨[2001, 2002], ["generation_eia923"]⟩
    (some [1995]) (some ["TX"]) ⟨[1995], ["TX"]⟩
    (some [1994]) (some ["f1_fuel"]) (some 1994) none ⟨[1994], ["f1_fuel"], 1994, []⟩
    (by
      rw [ferc1_construct_ok [1994] (some [1994, 1994]) (some ["fuel_ferc1"])
        (by decide)
        (by
          intro x hx
          simp only [Option.getD_some, List.mem_singleton] at hx
          subst hx
          exact mem_ferc1WorkingTables.mpr (by decide))]
      rfl)
    (by
      rw [eia860_construct_ok [2001] (some [2001]) (some ["plants_eia860"])
        (by decide)
        (by
          intro x hx
          simp only [Option.getD_some, List.mem_singleton] at hx
          subst hx
          exact mem_eia860WorkingTables.mpr (by decide))]
      rfl)
    (by
      rw [eia923_construct_ok [2001, 2002] (some [2002, 2001, 2002])
        (some ["generation_eia923"])
        (by decide)
        (by
          intro x hx
          simp only [Option.getD_some, List.mem_singleton] at hx
          subst hx
          exact mem_eia923WorkingTables.mpr (by decide))]
      rfl)
    rfl rfl

/-! ## Claim C9 -/

/-- C9: an EiaSettings built with eia923 settings and no eia860 settings
auto-populates eia860 with the eia923 years, the full default set of EIA860
tables, and eia860m False.  The hypotheses say the eia923 record carries
validated (sorted, deduplicated) years that are working EIA860 years;
otherwise the nested construction itself raises and no EiaSettings exists. -/
theorem C9_eia923_implies_eia860 (w860Years w923Years : List Int) (s : Eia923Settings)
    (hy : ∀ x ∈ s.years, x ∈ w860Years)
    (hcanon : sortedSet s.years = s.years) :
    EiaSettings.construct w860Years w923Years none (some s) =
      .ok ⟨some ⟨s.years, eia860WorkingTables, false⟩, some s⟩ := by
  have h860 := eia860_construct_ok w860Years (some s.years) none hy (fun x hx => hx)
  simp only [Option.getD_some, Option.getD_none] at h860
  rw [hcanon, show sortedSet eia860WorkingTables = eia860WorkingTables from
    sortedSet_of_insertionSort eia860TablesRaw (by decide)] at h860
  simp only [EiaSettings.construct]
  rw [h860]
  rfl

/-- C9 witness: the statement applied at a concrete validated eia923 record. -/
theorem C9_witness :
    EiaSettings.construct [2001] [2001] none (some ⟨[2001], ["generation_eia923"]⟩) =
      .ok ⟨some ⟨[2001], eia860WorkingTables, false⟩, some ⟨[2001], ["generation_eia923"]⟩⟩ :=
  C9_eia923_implies_eia860 [2001] [2001] ⟨[2001], ["generation_eia923"]⟩
    (by decide) (by decide)

/-! ## Claim C10 -/

/-- C10: with eia860m requested, `check_860m_date` fails if and only if the
year of the class-level `eia860m_date` (the string "2020-11", whose year is
2020) is not exactly one greater than the maximum working EIA860 year; with
eia860m False the check never fails.  The same holds for full
Eia860Settings construction when the requested years and tables are
themselves valid.  The nonemptiness hypothesis reflects that Python
`max([])` would itself raise. -/
theorem C10_check_860m (w860Years : List Int) (years : List Int) (tables : List String)
    (_hne : w860Years ≠ [])
    (hy : ∀ x ∈ years, x ∈ w860Years)
    (ht : ∀ x ∈ tables, x ∈ eia860WorkingTables) :
    ((∃ e, check_860m_date w860Years true = .error e) ↔
      dateYear eia860m_date ≠ listMax w860Years + 1)
    ∧ check_860m_date w860Years false = .ok false
    ∧ dateYear eia860m_date = 2020
    ∧ ((∃ e, Eia860Settings.construct w860Years (some years) (some tables) (some true) =
        .error e) ↔ dateYear eia860m_date ≠ listMax w860Years + 1) := by
  by_cases hd : dateYear eia860m_date ≠ listMax w860Years + 1
  · have hchk : ∃ e, check_860m_date w860Years true = .error e := by
      simp only [check_860m_date]
      rw [if_pos ⟨trivial, hd⟩]
      exact ⟨_, rfl⟩
    refine ⟨iff_of_true hchk hd, check_860m_date_false _, by decide, iff_of_true ?_ hd⟩
    obtain ⟨e, he⟩ := hchk
    refine ⟨e, ?_⟩
    simp only [Eia860Settings.construct, Option.getD_some]
    rw [he]
    rfl
  · have hchk : check_860m_date w860Years true = .ok true := by
      simp only [check_860m_date]
      rw [if_neg (fun hx => hd hx.2)]
    refine ⟨iff_of_false ?_ hd, check_860m_date_false _, by decide, iff_of_false ?_ hd⟩
    · rintro ⟨e, he⟩
      rw [hchk] at he
      exact absurd he (by simp)
    · rintro ⟨e, he⟩
      rw [show Eia860Settings.construct w860Years (some years) (some tables) (some true) =
          .ok ⟨sortedSet years, sortedSet tables, true⟩ from ?_] at he
      · exact absurd he (by simp)
      · simp only [Eia860Settings.construct, Option.getD_some]
        rw [hchk, validate_partition_ok _ _ _ _ ht, validate_partition_ok _ _ _ _ hy]
        rfl

/-- C10 witness: the statement applied at a concrete working-years list for
which the eia860m date check passes, with valid years and tables. -/
theorem C10_witness :
    ((∃ e, check_860m_date [2019] true = .error e) ↔
      dateYear eia860m_date ≠ listMax [2019] + 1)
    ∧ check_860m_date [2019] false = .ok false
    ∧ dateYear eia860m_date = 2020
    ∧ ((∃ e, Eia860Settings.construct [2019] (some [2019]) (some ["plants_eia860"])
        (some true) = .error e) ↔ dateYear eia860m_date ≠ listMax [2019] + 1) :=
  C10_check_860m [2019] [2019] ["plants_eia860"] (by decide) (by decide)
    (by
      intro x hx
      rw [List.mem_singleton] at hx
      subst hx
      exact mem_eia860WorkingTables.mpr (by decide))

end Pudl
